import Mathlib

/-!
Verification of the Coyote-ESP32 waveform/power encoding layer
(`Waveforms.h`).

The source packs values into C bitfield structs and transmits the low
3 bytes little-endian.  We embed each struct by its observable content:

* `CFGval` / `gCoyoteCfg`: the build-time configuration constant
  (`step : 8 bits = 7`, `maxPwr : 11 bits = 2000`, `rsvd : 13 bits = 0`).
* `PowerVal`: fields `B : 11`, `A : 11`, `rsvd : 10` bits; the
  constructor clamps each `uint8_t` input at `MAXPOWER = 100` and
  multiplies by `gCoyoteCfg.step`; bitfield assignment truncates
  mod `2^11`.
* `WaveVal`: fields `x : 5`, `y : 10`, `z : 5`, `rsvd : 12` bits.
  Only the low 3 bytes (24 bits) are ever transmitted or supplied by
  the byte constructor (`WaveVal(std::vector<uint8_t>)`, which writes
  exactly bytes 0..2 of the struct), so a `WaveVal` is embedded as the
  natural number formed by its 24 transmitted bits, with the field
  accessors as bit extractions.  Bits 24..31 of the C struct are never
  written by the byte constructor nor read anywhere in the repository.
-/

/-- Embedding of `struct CFGval` (`Waveforms.h` lines 23-27).  Field
widths in the source are `step : 8`, `maxPwr : 11`, `rsvd : 13`; the
values stored below fit their widths. -/
structure CFGval where
  step : Nat
  maxPwr : Nat
  rsvd : Nat
  deriving DecidableEq

/-- `gCoyoteCfg = {7, 2000, 0}`. -/
def gCoyoteCfg : CFGval := { step := 7, maxPwr := 2000, rsvd := 0 }

/-- Embedding of `struct PowerVal`'s three bitfields (`B : 11`,
`A : 11`, `rsvd : 10`). -/
structure PowerVal where
  B : Nat
  A : Nat
  rsvd : Nat
  deriving DecidableEq

namespace PowerVal

/-- `static const uint32_t MAXPOWER = 100`. -/
def MAXPOWER : Nat := 100

/-- Embedding of the constructor `PowerVal(uint8_t a, uint8_t b)`:
each argument is a `uint8_t` (hence `% 256`), clamped via
`(v < 100) ? v : MAXPOWER`, multiplied by `cfg.step`, and stored into
an 11-bit field (hence `% 2048`).  The configuration is passed
explicitly; the source reads the global `gCoyoteCfg`. -/
def ofLevels (cfg : CFGval) (a b : Nat) : PowerVal :=
  { B := ((if b % 256 < 100 then b % 256 else MAXPOWER) * cfg.step) % 2048
  , A := ((if a % 256 < 100 then a % 256 else MAXPOWER) * cfg.step) % 2048
  , rsvd := 0 }

end PowerVal

namespace WaveVal

/-- Embedding of the constructor `WaveVal(uint8_t X, uint16_t Y, uint8_t Z)`:
the arguments are `uint8_t`/`uint16_t` quantities, assigned to bitfields
of widths 5, 10, 5, so each is truncated to its field width; `rsvd = 0`.
The result is the packed 24-bit transmitted value with `x` in bits 0-4,
`y` in bits 5-14, `z` in bits 15-19. -/
def mkXYZ (X Y Z : Nat) : Nat :=
  X % 256 % 32 + Y % 65536 % 1024 * 32 + Z % 256 % 32 * 32768

/-- Field `x` (bits 0-4) of a packed `WaveVal`. -/
def x (v : Nat) : Nat := v % 32

/-- Field `y` (bits 5-14) of a packed `WaveVal`. -/
def y (v : Nat) : Nat := v / 32 % 1024

/-- Field `z` (bits 15-19) of a packed `WaveVal`. -/
def z (v : Nat) : Nat := v / 32768 % 32

/-- The transmitted part of field `rsvd` (bits 20-23 of the 3 wire
bytes; bits 24-31 of the C struct are never transmitted). -/
def rsvd (v : Nat) : Nat := v / 1048576

/-- The `while (bytes.size() < 3) bytes.push_back(0x00)` padding loop
of `WaveVal(std::vector<uint8_t>)`. -/
def padTo3 (bs : List Nat) : List Nat :=
  bs ++ List.replicate (3 - bs.length) 0

/-- Embedding of the constructor `WaveVal(std::vector<uint8_t> bytes)`:
pad to at least 3 bytes with zeros, then copy bytes 0..2 little-endian
into the struct.  Each list entry is a `uint8_t` (hence `% 256`). -/
def ofBytes (bs : List Nat) : Nat :=
  (padTo3 bs).getD 0 0 % 256
    + (padTo3 bs).getD 1 0 % 256 * 256
    + (padTo3 bs).getD 2 0 % 256 * 65536

/-- Embedding of `operator uint8_t*` combined with the protocol's
"transmitted LSB first 3 bytes only": the three wire bytes of a packed
`WaveVal`, little-endian. -/
def toBytes (v : Nat) : List Nat :=
  [v % 256, v / 256 % 256, v / 65536 % 256]

end WaveVal

/-- `typedef std::vector<WaveVal> Waveform`. -/
abbrev Waveform := List Nat

namespace DGLABS

/-- `DGLABS::GrainTouch` (12 steps, each built from observed bytes). -/
def GrainTouch : Waveform :=
  [WaveVal.ofBytes [0xE1, 0x03, 0x00],
   WaveVal.ofBytes [0xE1, 0x03, 0x0A],
   WaveVal.ofBytes [0xA1, 0x04, 0x0A],
   WaveVal.ofBytes [0xC1, 0x05, 0x0A],
   WaveVal.ofBytes [0x01, 0x07, 0x00],
   WaveVal.ofBytes [0x21, 0x01, 0x0A],
   WaveVal.ofBytes [0x61, 0x01, 0x0A],
   WaveVal.ofBytes [0xA1, 0x01, 0x0A],
   WaveVal.ofBytes [0x01, 0x02, 0x00],
   WaveVal.ofBytes [0x01, 0x02, 0x0A],
   WaveVal.ofBytes [0x81, 0x02, 0x0A],
   WaveVal.ofBytes [0x21, 0x03, 0x0A]]

/-- `DGLABS::AudioBase` (1 step). -/
def AudioBase : Waveform := [WaveVal.mkXYZ 1 9 16]

end DGLABS

namespace LTX4JAY

/-- `LTX4JAY::IntenseVibration` (1 step). -/
def IntenseVibration : Waveform := [WaveVal.mkXYZ 1 9 22]

/-- `LTX4JAY::SlowWave` (18 steps). -/
def SlowWave : Waveform :=
  [WaveVal.mkXYZ 1 26 8,
   WaveVal.mkXYZ 1 26 8,
   WaveVal.mkXYZ 1 24 10,
   WaveVal.mkXYZ 1 22 12,
   WaveVal.mkXYZ 1 20 14,
   WaveVal.mkXYZ 1 18 16,
   WaveVal.mkXYZ 1 16 18,
   WaveVal.mkXYZ 1 16 22,
   WaveVal.mkXYZ 1 16 24,
   WaveVal.mkXYZ 1 12 24,
   WaveVal.mkXYZ 1 12 24,
   WaveVal.mkXYZ 1 16 24,
   WaveVal.mkXYZ 1 16 22,
   WaveVal.mkXYZ 1 16 18,
   WaveVal.mkXYZ 1 18 16,
   WaveVal.mkXYZ 1 20 14,
   WaveVal.mkXYZ 1 22 12,
   WaveVal.mkXYZ 1 24 10]

/-- `LTX4JAY::MediumWave` (15 steps). -/
def MediumWave : Waveform :=
  [WaveVal.mkXYZ 1 9 4,
   WaveVal.mkXYZ 1 9 4,
   WaveVal.mkXYZ 1 9 6,
   WaveVal.mkXYZ 1 9 10,
   WaveVal.mkXYZ 1 9 12,
   WaveVal.mkXYZ 1 9 17,
   WaveVal.mkXYZ 1 9 20,
   WaveVal.mkXYZ 1 9 20,
   WaveVal.mkXYZ 1 9 20,
   WaveVal.mkXYZ 1 9 20,
   WaveVal.mkXYZ 1 9 20,
   WaveVal.mkXYZ 1 9 17,
   WaveVal.mkXYZ 1 9 12,
   WaveVal.mkXYZ 1 9 10,
   WaveVal.mkXYZ 1 9 6]

end LTX4JAY

/-- Every packed `WaveVal` built from a triple fits in 20 bits. -/
theorem mkXYZ_lt (X Y Z : Nat) : WaveVal.mkXYZ X Y Z < 1048576 := by
  unfold WaveVal.mkXYZ
  omega

/-- Decoding the three wire bytes of a 24-bit value recovers it. -/
theorem ofBytes_toBytes (v : Nat) (h : v < 16777216) :
    WaveVal.ofBytes (WaveVal.toBytes v) = v := by
  simp only [WaveVal.ofBytes, WaveVal.toBytes, WaveVal.padTo3,
    List.length_cons, List.length_nil]
  simp only [List.getD, List.getElem?_append_left, List.get?_eq_getElem?]
  norm_num [List.getD]
  omega

/-- Claim C1, counterexample: encoding `(x=1, y=9, z=16)` (the
`AudioBase` step) does NOT serialize to `{0xE1, 0x03, 0x00}`; it
serializes to `{0x21, 0x01, 0x08}`. -/
theorem c1_counterexample :
    WaveVal.toBytes (WaveVal.mkXYZ 1 9 16) ≠ [0xE1, 0x03, 0x00] ∧
    WaveVal.toBytes (WaveVal.mkXYZ 1 9 16) = [0x21, 0x01, 0x08] := by
  decide

/-- Claim C1, amended: encoding the waveform triple `x=1, y=9, z=16`
(the `AudioBase` preset step) and serializing it little-endian to
exactly 3 bytes yields `{0x21, 0x01, 0x08}`, with `x` in bits 0-4,
`y` in bits 5-14 and `z` in bits 15-19 of the 3-byte value.  (The byte
literal `{0xE1, 0x03, 0x00}` the spec names is the first `GrainTouch`
step, which decodes to `x=1, y=31, z=0`.) -/
theorem c1_amended :
    WaveVal.toBytes (WaveVal.mkXYZ 1 9 16) = [0x21, 0x01, 0x08] ∧
    DGLABS.AudioBase = [WaveVal.mkXYZ 1 9 16] ∧
    WaveVal.x (WaveVal.mkXYZ 1 9 16) = 1 ∧
    WaveVal.y (WaveVal.mkXYZ 1 9 16) = 9 ∧
    WaveVal.z (WaveVal.mkXYZ 1 9 16) = 16 ∧
    WaveVal.ofBytes [0xE1, 0x03, 0x00] = WaveVal.mkXYZ 1 31 0 := by
  decide

/-- Claim C2: for every `x` in 0..31, `y` in 0..1023 and `z` in 0..31,
decoding the 3-byte little-endian serialization of the encoded waveform
step reproduces that step bit-for-bit. -/
theorem c2_roundtrip (X Y Z : Nat) (hX : X ≤ 31) (hY : Y ≤ 1023) (hZ : Z ≤ 31) :
    WaveVal.ofBytes (WaveVal.toBytes (WaveVal.mkXYZ X Y Z)) = WaveVal.mkXYZ X Y Z :=
  ofBytes_toBytes _ (lt_trans (mkXYZ_lt X Y Z) (by norm_num))

/-- Concrete instance of `c2_roundtrip` at `(1, 9, 16)`. -/
theorem c2_roundtrip_witness :
    (1 : Nat) ≤ 31 ∧ (9 : Nat) ≤ 1023 ∧ (16 : Nat) ≤ 31 ∧
    WaveVal.ofBytes (WaveVal.toBytes (WaveVal.mkXYZ 1 9 16)) = WaveVal.mkXYZ 1 9 16 :=
  ⟨by decide, by decide, by decide, c2_roundtrip 1 9 16 (by decide) (by decide) (by decide)⟩

/-- Claim C3: for every `a` and `b` in 0..99, the power encoder (under
the reference configuration `gCoyoteCfg`) produces a frame with
`channelA = a * step`, `channelB = b * step` and the reserved bits
zero. -/
theorem c3_power_scaling (a b : Nat) (ha : a ≤ 99) (hb : b ≤ 99) :
    (PowerVal.ofLevels gCoyoteCfg a b).A = a * gCoyoteCfg.step ∧
    (PowerVal.ofLevels gCoyoteCfg a b).B = b * gCoyoteCfg.step ∧
    (PowerVal.ofLevels gCoyoteCfg a b).rsvd = 0 := by
  have ha2 : a % 256 = a := Nat.mod_eq_of_lt (by omega)
  have hb2 : b % 256 = b := Nat.mod_eq_of_lt (by omega)
  simp only [PowerVal.ofLevels, PowerVal.MAXPOWER, gCoyoteCfg, ha2, hb2]
  rw [if_pos (by omega : a < 100), if_pos (by omega : b < 100)]
  exact ⟨Nat.mod_eq_of_lt (by omega), Nat.mod_eq_of_lt (by omega), trivial⟩

/-- Concrete instance of `c3_power_scaling` at `(3, 4)`. -/
theorem c3_power_scaling_witness :
    (3 : Nat) ≤ 99 ∧ (4 : Nat) ≤ 99 ∧
    ((PowerVal.ofLevels gCoyoteCfg 3 4).A = 3 * gCoyoteCfg.step ∧
     (PowerVal.ofLevels gCoyoteCfg 3 4).B = 4 * gCoyoteCfg.step ∧
     (PowerVal.ofLevels gCoyoteCfg 3 4).rsvd = 0) :=
  ⟨by decide, by decide, c3_power_scaling 3 4 (by decide) (by decide)⟩

/-- Claim C4: for every `a` in 100..255 (unsigned 8-bit input) and
every `b`, the power encoder saturates: `channelA = 100 * step`; the
over-range input is treated as exactly 100 rather than as an error. -/
theorem c4_saturation (a b : Nat) (ha : 100 ≤ a) (ha2 : a ≤ 255) :
    (PowerVal.ofLevels gCoyoteCfg a b).A = 100 * gCoyoteCfg.step := by
  have ha3 : a % 256 = a := Nat.mod_eq_of_lt (by omega)
  simp only [PowerVal.ofLevels, PowerVal.MAXPOWER, gCoyoteCfg, ha3]
  rw [if_neg (by omega)]

/-- Concrete instance of `c4_saturation` at `a = 255`, `b = 0`. -/
theorem c4_saturation_witness :
    (100 : Nat) ≤ 255 ∧ (255 : Nat) ≤ 255 ∧
    (PowerVal.ofLevels gCoyoteCfg 255 0).A = 100 * gCoyoteCfg.step :=
  ⟨by decide, by decide, c4_saturation 255 0 (by decide) (by decide)⟩

/-- Claim C5: byte-sequence decoding is total and never fails: it uses
only the first 3 bytes of its input, zero-pads short inputs (so
`decode_from_bytes([]) = 0` and `decode_from_bytes([0xE1])` keeps the
supplied leading byte with trailing bytes zero), and
`decode_from_bytes([0x01,0x02,0x03,0x04,0x05]) =
decode_from_bytes([0x01,0x02,0x03])`. -/
theorem c5_decode_total :
    (∀ bs : List Nat, WaveVal.ofBytes bs = WaveVal.ofBytes (bs.take 3)) ∧
    WaveVal.ofBytes [] = 0 ∧
    WaveVal.toBytes (WaveVal.ofBytes [0xE1]) = [0xE1, 0x00, 0x00] ∧
    WaveVal.ofBytes [0x01, 0x02, 0x03, 0x04, 0x05] =
      WaveVal.ofBytes [0x01, 0x02, 0x03] := by
  refine ⟨?_, by decide, by decide, by decide⟩
  intro bs
  rcases bs with _ | ⟨a, _ | ⟨b, _ | ⟨c, rest⟩⟩⟩ <;>
    simp [WaveVal.ofBytes, WaveVal.padTo3]

/-- Claim C6: for every `X` in 0..255, `Y` in 0..65535 and `Z` in
0..255, constructing a waveform step from `(X, Y, Z)` stores
`x = X mod 32`, `y = Y mod 1024`, `z = Z mod 32` (silent wrap-on-overflow
via bitfield truncation), with the reserved bits zero. -/
theorem c6_field_truncation (X Y Z : Nat)
    (hX : X ≤ 255) (hY : Y ≤ 65535) (hZ : Z ≤ 255) :
    WaveVal.x (WaveVal.mkXYZ X Y Z) = X % 32 ∧
    WaveVal.y (WaveVal.mkXYZ X Y Z) = Y % 1024 ∧
    WaveVal.z (WaveVal.mkXYZ X Y Z) = Z % 32 ∧
    WaveVal.rsvd (WaveVal.mkXYZ X Y Z) = 0 := by
  unfold WaveVal.x WaveVal.y WaveVal.z WaveVal.rsvd WaveVal.mkXYZ
  refine ⟨?_, ?_, ?_, ?_⟩ <;> omega

/-- Concrete instance of `c6_field_truncation` at `(1, 9, 37)`: the
out-of-range `z = 37` wraps to `5`. -/
theorem c6_field_truncation_witness :
    (1 : Nat) ≤ 255 ∧ (9 : Nat) ≤ 65535 ∧ (37 : Nat) ≤ 255 ∧
    (WaveVal.x (WaveVal.mkXYZ 1 9 37) = 1 % 32 ∧
     WaveVal.y (WaveVal.mkXYZ 1 9 37) = 9 % 1024 ∧
     WaveVal.z (WaveVal.mkXYZ 1 9 37) = 37 % 32 ∧
     WaveVal.rsvd (WaveVal.mkXYZ 1 9 37) = 0) :=
  ⟨by decide, by decide, by decide,
   c6_field_truncation 1 9 37 (by decide) (by decide) (by decide)⟩

/-- Claim C7: the preset library contains `GrainTouch` with exactly 12
steps, `MediumWave` with exactly 15 steps and `SlowWave` with exactly
18 steps, each in exactly the documented order (listed here as the
observable wire bytes for `GrainTouch` and the observable `(x, y, z)`
field values for `MediumWave` and `SlowWave`). -/
theorem c7_preset_integrity :
    DGLABS.GrainTouch.length = 12 ∧
    LTX4JAY.MediumWave.length = 15 ∧
    LTX4JAY.SlowWave.length = 18 ∧
    DGLABS.GrainTouch.map WaveVal.toBytes =
      [[0xE1, 0x03, 0x00], [0xE1, 0x03, 0x0A], [0xA1, 0x04, 0x0A],
       [0xC1, 0x05, 0x0A], [0x01, 0x07, 0x00], [0x21, 0x01, 0x0A],
       [0x61, 0x01, 0x0A], [0xA1, 0x01, 0x0A], [0x01, 0x02, 0x00],
       [0x01, 0x02, 0x0A], [0x81, 0x02, 0x0A], [0x21, 0x03, 0x0A]] ∧
    LTX4JAY.MediumWave.map (fun v => (WaveVal.x v, WaveVal.y v, WaveVal.z v)) =
      [(1, 9, 4), (1, 9, 4), (1, 9, 6), (1, 9, 10), (1, 9, 12), (1, 9, 17),
       (1, 9, 20), (1, 9, 20), (1, 9, 20), (1, 9, 20), (1, 9, 20), (1, 9, 17),
       (1, 9, 12), (1, 9, 10), (1, 9, 6)] ∧
    LTX4JAY.SlowWave.map (fun v => (WaveVal.x v, WaveVal.y v, WaveVal.z v)) =
      [(1, 26, 8), (1, 26, 8), (1, 24, 10), (1, 22, 12), (1, 20, 14),
       (1, 18, 16), (1, 16, 18), (1, 16, 22), (1, 16, 24), (1, 12, 24),
       (1, 12, 24), (1, 16, 24), (1, 16, 22), (1, 16, 18), (1, 18, 16),
       (1, 20, 14), (1, 22, 12), (1, 24, 10)] := by
  decide

/-- Claim C8: under the configuration `step = 7`, `maxPower = 2000`
(the build-time values of the reference design), encoding power levels
`a = 25` and `b = 25` yields `channelA = 175` and `channelB = 175`. -/
theorem c8_reference_config :
    gCoyoteCfg.step = 7 ∧ gCoyoteCfg.maxPwr = 2000 ∧
    (PowerVal.ofLevels gCoyoteCfg 25 25).A = 175 ∧
    (PowerVal.ofLevels gCoyoteCfg 25 25).B = 175 := by
  decide

/-- Claim C9: the power-encoder output is independent of the `maxPwr`
configuration field — any two configurations with the same `step`
produce identical `PowerVal` frames on every input — and under the
reference configuration the only effective bound on `channelA` and
`channelB` is `100 * step = 700`. -/
theorem c9_maxPwr_independence :
    (∀ cfg1 cfg2 : CFGval, ∀ a b : Nat, cfg1.step = cfg2.step →
      PowerVal.ofLevels cfg1 a b = PowerVal.ofLevels cfg2 a b) ∧
    (∀ a b : Nat,
      (PowerVal.ofLevels gCoyoteCfg a b).A ≤ 100 * gCoyoteCfg.step ∧
      (PowerVal.ofLevels gCoyoteCfg a b).B ≤ 100 * gCoyoteCfg.step) := by
  constructor
  · intro c1 c2 a b hstep
    simp only [PowerVal.ofLevels, hstep]
  · intro a b
    have key : ∀ v : Nat,
        (if v < 100 then v else PowerVal.MAXPOWER) * 7 % 2048 ≤ 100 * 7 := by
      intro v
      split
      · rename_i hv
        rw [Nat.mod_eq_of_lt (by omega)]
        omega
      · decide
    simp only [PowerVal.ofLevels, gCoyoteCfg]
    exact ⟨key (a % 256), key (b % 256)⟩

/-- Concrete instance of `c9_maxPwr_independence`: zeroing the
`maxPwr` field leaves the encoded frame unchanged. -/
theorem c9_maxPwr_independence_witness :
    PowerVal.ofLevels { step := 7, maxPwr := 0, rsvd := 0 } 25 25 =
      PowerVal.ofLevels { step := 7, maxPwr := 2000, rsvd := 0 } 25 25 :=
  c9_maxPwr_independence.1 { step := 7, maxPwr := 0, rsvd := 0 }
    { step := 7, maxPwr := 2000, rsvd := 0 } 25 25 rfl

/-- Claim C10: for every byte sequence `bs` (entries being `uint8_t`
values), serializing the step decoded from `bs` reproduces the
normalized input exactly: `decode_from_bytes(bs).to_bytes()` equals
`bs` right-padded with zero bytes or truncated to exactly 3 bytes. -/
theorem c10_decode_then_serialize (bs : List Nat) (h : ∀ u ∈ bs, u < 256) :
    WaveVal.toBytes (WaveVal.ofBytes bs) = (WaveVal.padTo3 bs).take 3 := by
  rcases bs with _ | ⟨a, _ | ⟨b, _ | ⟨c, rest⟩⟩⟩
  · decide
  · have ha : a < 256 := h a (by simp)
    simp [WaveVal.toBytes, WaveVal.ofBytes, WaveVal.padTo3]
    omega
  · have ha : a < 256 := h a (by simp)
    have hb : b < 256 := h b (by simp)
    simp [WaveVal.toBytes, WaveVal.ofBytes, WaveVal.padTo3]
    omega
  · have ha : a < 256 := h a (by simp)
    have hb : b < 256 := h b (by simp)
    have hc : c < 256 := h c (by simp)
    have hlen : 3 - (a :: b :: c :: rest).length = 0 := by simp
    simp [WaveVal.toBytes, WaveVal.ofBytes, WaveVal.padTo3, hlen]
    omega

/-- Concrete instance of `c10_decode_then_serialize` at `[0xE1]`. -/
theorem c10_decode_then_serialize_witness :
    (∀ u ∈ [(0xE1 : Nat)], u < 256) ∧
    WaveVal.toBytes (WaveVal.ofBytes [0xE1]) = (WaveVal.padTo3 [0xE1]).take 3 :=
  ⟨by decide, c10_decode_then_serialize [0xE1] (by decide)⟩
